import Mathlib

/-!
Shallow embedding of the staircase-experiment core (Experiment.py).
Python floats are modelled as rationals, Python ints as integers, the
optional float / direction-string attributes as Option values.
-/

inductive Direction where
  | closer
  | further
deriving DecidableEq, Repr

/-- One trial record (class ResultSet, Experiment.py lines 495-509).
In Python, when next_sample_data is None the reversal and
test_sample_change attributes are left unset; they are never read before
being assigned, so here they are materialised with a placeholder value. -/
structure ResultSet where
  target : ℚ
  test_sample : ℚ
  presented_first : ℚ
  sample_num : ℤ
  correct : Bool
  current_direction : Option Direction
  reversal : Bool
  test_sample_change : Bool
deriving DecidableEq, Repr

/-- Staircase state (class Staircase, Experiment.py lines 163-194).
Display-only configuration strings (units, unit type, comparison
descriptor, floor rule, end criteria) are omitted: the code never reads
them after construction. -/
structure Staircase where
  name : String
  harder_step : ℚ
  easier_step : ℚ
  target : ℚ
  start_value : ℚ
  initial_setup : String
  run_initial_setup : String
  correct_reverse_count : ℤ
  end_criteria_reversals : ℤ
  is_finished : Bool
  current_sample : ℚ
  correct_count : ℤ
  test_count : ℤ
  reversal_count : ℤ
  results : List ResultSet
  current_direction : Option Direction
  last_sample : Option ℚ
deriving DecidableEq, Repr

/-- Staircase.__init__ (lines 168-194): fresh state; when the reference
(target) is below the start value both steps are negated. -/
def mkStaircase (name : String) (harder easier target start : ℚ)
    (initial : String) (crc ecr : ℤ) : Staircase :=
  { name := name
    harder_step := if target < start then -harder else harder
    easier_step := if target < start then -easier else easier
    target := target
    start_value := start
    initial_setup := initial
    run_initial_setup := initial
    correct_reverse_count := crc
    end_criteria_reversals := ecr
    is_finished := false
    current_sample := start
    correct_count := 0
    test_count := 0
    reversal_count := 0
    results := []
    current_direction := none
    last_sample := none }

/-- Staircase.check_correct (lines 384-398). -/
def check_correct (selected_choice target sample : ℚ) : Bool :=
  if selected_choice = target ∧ target > sample then true
  else if selected_choice = sample ∧ sample > target then true
  else false

/-- The unclamped move of Staircase.calc_next_sample (lines 295-298). -/
def moved_sample (s : Staircase) : Direction → ℚ
  | Direction.closer => s.current_sample + s.harder_step
  | Direction.further => s.current_sample - s.easier_step

/-- The clamp chain of Staircase.calc_next_sample (lines 300-308),
applied to the freshly moved sample value m. -/
def clamp_sample (s : Staircase) (m : ℚ) : ℚ :=
  if s.start_value < s.target ∧ s.target ≤ m then s.target - |s.harder_step|
  else if s.start_value > s.target ∧ s.target ≥ m then s.target + |s.harder_step|
  else if (s.target > s.start_value ∧ s.start_value > m) ∨
      (s.target < s.start_value ∧ s.start_value < m) then s.start_value
  else m

/-- Staircase.calc_next_sample (lines 289-308). -/
def calc_next_sample (s : Staircase) (d : Direction) : Staircase :=
  { s with current_sample := clamp_sample s (moved_sample s d) }

/-- The branch part of Staircase.get_next_sample (lines 260-280): update
correct_count and possibly move the sample; produce the local direction
variable and the sample-changed flag. -/
def gns_branch (s : Staircase) (last_correct : Bool) :
    Staircase × Option Direction × Bool :=
  if last_correct then
    let s1 := { s with correct_count := s.correct_count + 1 }
    if s1.initial_setup = "Y" ∧ s1.reversal_count = 0 then
      (calc_next_sample s1 Direction.closer, some Direction.closer, true)
    else if s1.correct_count = s1.correct_reverse_count then
      ({ calc_next_sample s1 Direction.closer with correct_count := 0 },
        some Direction.closer, true)
    else (s1, none, false)
  else
    let s1 := if s.test_count = 0 ∧ s.initial_setup = "Y" then
        { s with initial_setup := "N" } else s
    ({ calc_next_sample s1 Direction.further with correct_count := 0 },
      some Direction.further, true)

/-- The reversal condition of get_next_sample line 281, over the state
left by the branch part and the local direction variable. -/
def bk_reversal (t : Staircase) (d : Option Direction) : Prop :=
  t.last_sample ≠ none ∧ t.last_sample ≠ some t.current_sample ∧
    t.current_direction ≠ none ∧ t.current_direction ≠ d

instance (t : Staircase) (d : Option Direction) : Decidable (bk_reversal t d) := by
  unfold bk_reversal
  infer_instance

/-- The direction/reversal bookkeeping of get_next_sample (lines 281-287):
count a reversal, update current_direction, record last_sample; returns
the updated state and the reversal flag. -/
def gns_bookkeep (t : Staircase) (d : Option Direction) : Staircase × Bool :=
  let s3 := if bk_reversal t d then
      { t with reversal_count := t.reversal_count + 1 } else t
  let s4 := if s3.current_direction = none ∨
      (s3.last_sample ≠ some s3.current_sample ∧ s3.current_direction ≠ d)
    then { s3 with current_direction := d } else s3
  let s5 := { s4 with last_sample := some s4.current_sample }
  (s5, decide (bk_reversal t d))

/-- The direction-update condition of line 284 over the branch state. -/
def bk_update (t : Staircase) (d : Option Direction) : Prop :=
  t.current_direction = none ∨
    (t.last_sample ≠ some t.current_sample ∧ t.current_direction ≠ d)

instance (t : Staircase) (d : Option Direction) : Decidable (bk_update t d) := by
  unfold bk_update
  infer_instance

/-- Staircase.get_next_sample (lines 254-287): branch part followed by the
bookkeeping part; returns the updated staircase plus the returned pair
(reversal occurred, test sample changed). -/
def get_next_sample (s : Staircase) (last_correct : Bool) :
    Staircase × Bool × Bool :=
  let p := gns_branch s last_correct
  let b := gns_bookkeep p.1 p.2.1
  (b.1, b.2, p.2.2)

/-- Staircase.determine_is_finished (lines 468-474). -/
def determine_is_finished (s : Staircase) : Staircase :=
  if s.reversal_count = s.end_criteria_reversals then
    { s with is_finished := true }
  else s

/-- The state-updating part of Staircase.run (lines 333-338): score one
answer, append the ResultSet (whose constructor arguments are evaluated
left to right, hence read before get_next_sample mutates the state), bump
the test counter and recompute the finished flag.  The correctness boolean
and the value presented first are parameters; the prompting around them is
interactive I/O. -/
def run_trial (s : Staircase) (correct : Bool) (choice1 : ℚ) : Staircase :=
  let gns := get_next_sample s correct
  let r : ResultSet :=
    { target := s.target
      test_sample := s.current_sample
      presented_first := choice1
      sample_num := s.test_count
      correct := correct
      current_direction := s.current_direction
      reversal := gns.2.1
      test_sample_change := gns.2.2 }
  let s2 := { gns.1 with
              results := gns.1.results ++ [r]
              test_count := gns.1.test_count + 1 }
  determine_is_finished s2

/-- Submit a list of correctness judgments through Staircase.run.  The
value presented first is chosen at random in Python and only stored for
display; the reference value is passed here. -/
def runTrials (s : Staircase) (cs : List Bool) : Staircase :=
  cs.foldl (fun t c => run_trial t c t.target) s

/-- Trials as driven by Experiment.run (lines 63-71): a staircase receives
further trials only while it is not finished. -/
def run_while_open (s : Staircase) (cs : List Bool) : Staircase :=
  cs.foldl (fun t c => if t.is_finished then t else run_trial t c t.target) s

/-- One iteration of the backtrack replay loop (Staircase.backtrack,
lines 433-445), acting on (correct_count, reversal_count, last_sample). -/
def replay_step (flag : String) (crc : ℤ) (acc : ℤ × ℤ × ℚ) (r : ResultSet) :
    ℤ × ℤ × ℚ :=
  let rc := acc.2.1 + (if r.reversal then 1 else 0)
  let cc :=
    if r.correct then
      let cc1 := acc.1 + 1
      if (flag ≠ "Y" ∨ rc ≠ 0) ∧ cc1 = crc then 0 else cc1
    else 0
  (cc, rc, r.test_sample)

/-- The backtrack replay loop (lines 430-449), starting from
correct_count = 0, reversal_count = 0, last_sample = 0. -/
def replay (flag : String) (crc : ℤ) (rs : List ResultSet) : ℤ × ℤ × ℚ :=
  rs.foldl (replay_step flag crc) (0, 0, 0)

/-- Staircase.backtrack (lines 400-466), parameterised by the operator's
re-selected value.  Python evaluates self.results[-1] before its None
guard, so an empty history raises IndexError; that exception is the error
case here.  A selected value matching neither presented choice abandons
the backtrack with the state unchanged (the early return of line 419). -/
def backtrack (s : Staircase) (selected_choice : ℚ) : Except String Staircase :=
  match s.results.getLast? with
  | none => Except.error "IndexError"
  | some last_result =>
    let choice1 := if last_result.presented_first = last_result.target
      then last_result.target else last_result.test_sample
    let choice2 := if last_result.presented_first = last_result.target
      then last_result.test_sample else last_result.target
    if selected_choice ≠ choice1 ∧ selected_choice ≠ choice2 then
      Except.ok s
    else
      let correct := check_correct selected_choice last_result.target
        last_result.test_sample
      let sPop := { s with results := s.results.dropLast }
      let new_result : ResultSet :=
        { target := s.target
          test_sample := last_result.test_sample
          presented_first := choice1
          sample_num := last_result.sample_num
          correct := correct
          current_direction := none
          reversal := false
          test_sample_change := false }
      if last_result.correct ≠ new_result.correct then
        let rep := replay sPop.initial_setup sPop.correct_reverse_count
          sPop.results
        let sA := { sPop with
                    correct_count := rep.1
                    reversal_count := rep.2.1
                    last_sample := some rep.2.2 }
        let sB := if last_result.sample_num = 0 then
            { sA with initial_setup := sA.run_initial_setup } else sA
        let sC := { sB with
                    current_direction := last_result.current_direction
                    current_sample := last_result.test_sample
                    test_count := last_result.sample_num
                    last_sample := some last_result.test_sample }
        let gns := get_next_sample sC correct
        let sD := { gns.1 with test_count := gns.1.test_count + 1 }
        let new_result1 := { new_result with
            reversal := gns.2.1
            test_sample_change := gns.2.2
            current_direction := sD.current_direction }
        let sE := determine_is_finished sD
        Except.ok { sE with results := sE.results ++ [new_result1] }
      else
        Except.ok { sPop with results := sPop.results ++ [last_result] }

/-- Adjacent-pair direction-change contribution: one when both directions
are set and differ, zero otherwise. -/
def dirPairChange (a b : Option Direction) : ℕ :=
  match a, b with
  | some x, some y => if x = y then 0 else 1
  | _, _ => 0

/-- Number of adjacent pairs of set directions that differ. -/
def countDirChanges : List (Option Direction) → ℕ
  | a :: b :: rest => dirPairChange a b + countDirChanges (b :: rest)
  | _ => 0

/-- Scheduler state of class Experiment: the swap criteria string and the
list of open staircases (lines 33-35). -/
structure Experiment where
  swap_criteria : String
  open_staircases : List Staircase
deriving Repr

/-- Experiment.next_staircase (lines 134-160).  list.index compares
staircases by name (Staircase.__eq__, line 476).  The Random branch's
random.choice is modelled by the pick parameter (an arbitrary index).
Python implicitly returns None when Serial is combined with an unfinished
current staircase, or when the swap criteria string is unrecognised;
indexing [0] on an empty open list would raise, so callers must check for
open staircases first. -/
def next_staircase (e : Experiment) (pick : ℕ) (current : Option Staircase) :
    Option Staircase :=
  match current with
  | none => e.open_staircases.head?
  | some c =>
    if e.swap_criteria = "Serial" then
      if c.is_finished then e.open_staircases.head? else none
    else if e.swap_criteria = "Alternate" then
      match e.open_staircases.findIdx? (fun t => t.name == c.name) with
      | none => e.open_staircases.head?
      | some i =>
        if i + 1 = e.open_staircases.length then e.open_staircases.head?
        else e.open_staircases[i+1]?
    else if e.swap_criteria = "Random" then
      e.open_staircases[pick % e.open_staircases.length]?
    else none

/-!
Derived characterisations of one trial's effect on each state field,
mirroring the branch structure of get_next_sample.  They are proved equal
to the projections of run_trial below and give the proofs an algebraic
interface to the step function.
-/

/-- The sample value in current_sample after one trial with outcome c. -/
def next_sample_value (s : Staircase) (c : Bool) : ℚ :=
  if c then
    if s.initial_setup = "Y" ∧ s.reversal_count = 0 then
      clamp_sample s (s.current_sample + s.harder_step)
    else if s.correct_count + 1 = s.correct_reverse_count then
      clamp_sample s (s.current_sample + s.harder_step)
    else s.current_sample
  else clamp_sample s (s.current_sample - s.easier_step)

/-- The local direction variable of get_next_sample for outcome c. -/
def trial_direction (s : Staircase) (c : Bool) : Option Direction :=
  if c then
    if s.initial_setup = "Y" ∧ s.reversal_count = 0 then some Direction.closer
    else if s.correct_count + 1 = s.correct_reverse_count then
      some Direction.closer
    else none
  else some Direction.further

/-- The returned test-sample-changed flag for outcome c. -/
def trial_changed (s : Staircase) (c : Bool) : Bool :=
  if c then
    if s.initial_setup = "Y" ∧ s.reversal_count = 0 then true
    else if s.correct_count + 1 = s.correct_reverse_count then true
    else false
  else true

/-- The reversal condition of get_next_sample line 281 for outcome c,
expressed over the pre-trial state. -/
def trial_is_reversal (s : Staircase) (c : Bool) : Prop :=
  s.last_sample ≠ none ∧ s.last_sample ≠ some (next_sample_value s c) ∧
    s.current_direction ≠ none ∧ s.current_direction ≠ trial_direction s c

instance (s : Staircase) (c : Bool) : Decidable (trial_is_reversal s c) := by
  unfold trial_is_reversal
  infer_instance

/-- The direction-update condition of get_next_sample line 284, expressed
over the pre-trial state. -/
def trial_updates_direction (s : Staircase) (c : Bool) : Prop :=
  s.current_direction = none ∨
    (s.last_sample ≠ some (next_sample_value s c) ∧
      s.current_direction ≠ trial_direction s c)

instance (s : Staircase) (c : Bool) :
    Decidable (trial_updates_direction s c) := by
  unfold trial_updates_direction
  infer_instance

/-- The correct_count after one trial with outcome c. -/
def next_correct_count (s : Staircase) (c : Bool) : ℤ :=
  if c then
    if s.initial_setup = "Y" ∧ s.reversal_count = 0 then s.correct_count + 1
    else if s.correct_count + 1 = s.correct_reverse_count then 0
    else s.correct_count + 1
  else 0

/-- The initial_setup flag after one trial with outcome c. -/
def next_flag (s : Staircase) (c : Bool) : String :=
  if c then s.initial_setup
  else if s.test_count = 0 ∧ s.initial_setup = "Y" then "N"
  else s.initial_setup

/-- The ResultSet appended by one trial with outcome c and first choice q. -/
def trial_record (s : Staircase) (c : Bool) (q : ℚ) : ResultSet :=
  { target := s.target
    test_sample := s.current_sample
    presented_first := q
    sample_num := s.test_count
    correct := c
    current_direction := s.current_direction
    reversal := decide (trial_is_reversal s c)
    test_sample_change := trial_changed s c }

/-- StairInv ties a staircase state to its recorded history: the counters
agree with what the backtrack replay loop reconstructs from the records,
the records store the pre-trial direction, and the bookkeeping fields are
mutually consistent. -/
structure StairInv (s : Staircase) : Prop where
  tc_len : s.test_count = (s.results.length : ℤ)
  rep_cc : (replay s.initial_setup s.correct_reverse_count s.results).1 =
    s.correct_count
  rep_rc : (replay s.initial_setup s.correct_reverse_count s.results).2.1 =
    s.reversal_count
  dirC : s.initial_setup = "Y" → s.reversal_count = 0 →
    s.current_direction = none ∨ s.current_direction = some Direction.closer
  dirY : s.initial_setup = "Y" → s.results ≠ [] → s.current_direction ≠ none
  empty_last : s.results = [] ↔ s.last_sample = none
  last_cur : s.results ≠ [] → s.last_sample = some s.current_sample
  empty_dir : s.results = [] → s.current_direction = none
  cc_nonneg : 0 ≤ s.correct_count
  rc_count : s.reversal_count =
    (countDirChanges (s.results.map ResultSet.current_direction ++
      [s.current_direction]) : ℤ)

/-- Bounds invariant for the clamped sample: the sample stays on the start
side of the reference, strictly off the reference, whenever the harder
step is a positive magnitude not exceeding the start-reference gap. -/
def SampleBounds (s : Staircase) : Prop :=
  (s.start_value < s.target ∧ 0 < s.harder_step ∧
    s.harder_step ≤ s.target - s.start_value ∧
    s.start_value ≤ s.current_sample ∧ s.current_sample < s.target) ∨
  (s.target < s.start_value ∧ s.harder_step < 0 ∧
    s.target - s.start_value ≤ s.harder_step ∧
    s.target < s.current_sample ∧ s.current_sample ≤ s.start_value)

/-- Invariant for the finished flag under experiment-driven trials. -/
def FinishedInv (s : Staircase) : Prop :=
  0 ≤ s.reversal_count ∧ s.reversal_count ≤ s.end_criteria_reversals ∧
    (s.is_finished = true ↔ s.reversal_count = s.end_criteria_reversals)

/-!  Concrete staircases and their trial-by-trial states. -/

/-- The section 8 scenario staircase: start 10, reference 50, harder step 5,
easier step 2, two correct answers per tightening, two reversals to end. -/
def S10 : Staircase := mkStaircase "Staircase 1" 5 2 50 10 "N" 2 2

def S10a : Staircase :=
  { name := "Staircase 1", harder_step := 5, easier_step := 2, target := 50,
    start_value := 10, initial_setup := "N", run_initial_setup := "N",
    correct_reverse_count := 2, end_criteria_reversals := 2,
    is_finished := false, current_sample := 10, correct_count := 1,
    test_count := 1, reversal_count := 0,
    results := [{ target := 50, test_sample := 10, presented_first := 50,
                  sample_num := 0, correct := true, current_direction := none,
                  reversal := false, test_sample_change := false }],
    current_direction := none, last_sample := some 10 }

def S10b : Staircase :=
  { S10a with
    current_sample := 15
    correct_count := 0
    test_count := 2
    results := S10a.results ++
      [{ target := 50, test_sample := 10, presented_first := 50,
         sample_num := 1, correct := true, current_direction := none,
         reversal := false, test_sample_change := true }]
    current_direction := some Direction.closer
    last_sample := some 15 }

def S10c : Staircase :=
  { S10b with
    current_sample := 13
    correct_count := 0
    test_count := 3
    reversal_count := 1
    results := S10b.results ++
      [{ target := 50, test_sample := 15, presented_first := 50,
         sample_num := 2, correct := false,
         current_direction := some Direction.closer,
         reversal := true, test_sample_change := true }]
    current_direction := some Direction.further
    last_sample := some 13 }

def S10d : Staircase :=
  { S10c with
    correct_count := 1
    test_count := 4
    results := S10c.results ++
      [{ target := 50, test_sample := 13, presented_first := 50,
         sample_num := 3, correct := true,
         current_direction := some Direction.further,
         reversal := false, test_sample_change := false }]
    last_sample := some 13 }

def S10e : Staircase :=
  { S10d with
    is_finished := true
    current_sample := 18
    correct_count := 0
    test_count := 5
    reversal_count := 2
    results := S10d.results ++
      [{ target := 50, test_sample := 13, presented_first := 50,
         sample_num := 4, correct := true,
         current_direction := some Direction.further,
         reversal := true, test_sample_change := true }]
    current_direction := some Direction.closer
    last_sample := some 18 }

/-- The backtrack scenario staircase: start 100, reference 0, harder step
10, easier step 5, one correct answer per tightening.  After construction
the steps are negated since the reference is below the start. -/
def S100 : Staircase := mkStaircase "Staircase 1" 10 5 0 100 "N" 1 2

def S100a : Staircase :=
  { name := "Staircase 1", harder_step := -10, easier_step := -5,
    target := 0, start_value := 100, initial_setup := "N",
    run_initial_setup := "N", correct_reverse_count := 1,
    end_criteria_reversals := 2, is_finished := false, current_sample := 90,
    correct_count := 0, test_count := 1, reversal_count := 0,
    results := [{ target := 0, test_sample := 100, presented_first := 0,
                  sample_num := 0, correct := true, current_direction := none,
                  reversal := false, test_sample_change := true }],
    current_direction := some Direction.closer, last_sample := some 90 }

def S100b : Staircase :=
  { S100a with
    current_sample := 95
    test_count := 2
    reversal_count := 1
    results := S100a.results ++
      [{ target := 0, test_sample := 90, presented_first := 0,
         sample_num := 1, correct := false,
         current_direction := some Direction.closer,
         reversal := true, test_sample_change := true }]
    current_direction := some Direction.further
    last_sample := some 95 }

/-- The state produced by backtracking the second trial of S100b to a
correct answer (the operator re-selects the test sample 90). -/
def S100bt : Staircase :=
  { S100a with
    current_sample := 80
    test_count := 2
    results := S100a.results ++
      [{ target := 0, test_sample := 90, presented_first := 0,
         sample_num := 1, correct := true,
         current_direction := some Direction.closer,
         reversal := false, test_sample_change := true }]
    current_direction := some Direction.closer
    last_sample := some 80 }

/-- A staircase whose harder step exceeds the start-reference gap:
start 10, reference 12, harder step 5, first-error mode active. -/
def SY12 : Staircase := mkStaircase "Staircase 1" 5 2 12 10 "Y" 2 2

def SY12a : Staircase :=
  { name := "Staircase 1", harder_step := 5, easier_step := 2, target := 12,
    start_value := 10, initial_setup := "Y", run_initial_setup := "Y",
    correct_reverse_count := 2, end_criteria_reversals := 2,
    is_finished := false, current_sample := 7, correct_count := 1,
    test_count := 1, reversal_count := 0,
    results := [{ target := 12, test_sample := 10, presented_first := 12,
                  sample_num := 0, correct := true, current_direction := none,
                  reversal := false, test_sample_change := true }],
    current_direction := some Direction.closer, last_sample := some 7 }

/-- A staircase configured with zero reversals to finish. -/
def SEcr0 : Staircase := mkStaircase "Staircase 1" 10 5 0 100 "N" 1 0

/-- A serial experiment holding the single open staircase S100. -/
def ESerial : Experiment :=
  { swap_criteria := "Serial", open_staircases := [S100] }

/-- Concrete staircases exercising the three clamp rules. -/
def CL1 : Staircase := { S10 with current_sample := 48 }

def CL2 : Staircase := { S100 with current_sample := 8 }

def CL3 : Staircase := { S10 with current_sample := 11 }

/-!  Projection lemmas for determine_is_finished. -/

theorem strNY : ¬ (("N" : String) = "Y") := by decide

theorem df_eq (t : Staircase) : determine_is_finished t =
    { t with is_finished :=
        if t.reversal_count = t.end_criteria_reversals then true
        else t.is_finished } := by
  unfold determine_is_finished
  split_ifs <;> rfl

/-!  Projection lemmas for gns_bookkeep. -/

theorem bk_eq (t : Staircase) (d : Option Direction) : gns_bookkeep t d =
    ({ t with
        reversal_count :=
          t.reversal_count + (if bk_reversal t d then 1 else 0)
        current_direction :=
          if bk_update t d then d else t.current_direction
        last_sample := some t.current_sample },
      decide (bk_reversal t d)) := by
  unfold gns_bookkeep bk_update
  simp only [apply_ite Staircase.current_direction,
    apply_ite Staircase.last_sample, apply_ite Staircase.current_sample,
    ite_self]
  split_ifs <;> simp

theorem br_eq (s : Staircase) (c : Bool) : gns_branch s c =
    ({ s with
        initial_setup := next_flag s c
        current_sample := next_sample_value s c
        correct_count := next_correct_count s c },
      trial_direction s c, trial_changed s c) := by
  cases c <;>
    unfold gns_branch next_flag next_sample_value next_correct_count
      trial_direction trial_changed calc_next_sample moved_sample
      clamp_sample <;>
    dsimp only <;>
    split_ifs <;>
    simp_all

theorem brev_iff (s : Staircase) (c : Bool) :
    bk_reversal { s with
        initial_setup := next_flag s c
        current_sample := next_sample_value s c
        correct_count := next_correct_count s c } (trial_direction s c) ↔
      trial_is_reversal s c := Iff.rfl

theorem bupd_iff (s : Staircase) (c : Bool) :
    bk_update { s with
        initial_setup := next_flag s c
        current_sample := next_sample_value s c
        correct_count := next_correct_count s c } (trial_direction s c) ↔
      trial_updates_direction s c := Iff.rfl

theorem gns_eq (s : Staircase) (c : Bool) : get_next_sample s c =
    ({ s with
        initial_setup := next_flag s c
        current_sample := next_sample_value s c
        correct_count := next_correct_count s c
        reversal_count :=
          s.reversal_count + (if trial_is_reversal s c then 1 else 0)
        current_direction :=
          if trial_updates_direction s c then trial_direction s c
          else s.current_direction
        last_sample := some (next_sample_value s c) },
      decide (trial_is_reversal s c), trial_changed s c) := by
  unfold get_next_sample
  rw [br_eq]
  dsimp only
  rw [bk_eq]
  simp only [brev_iff, bupd_iff]

theorem rt_eq (s : Staircase) (c : Bool) (q : ℚ) : run_trial s c q =
    { s with
      initial_setup := next_flag s c
      current_sample := next_sample_value s c
      correct_count := next_correct_count s c
      reversal_count :=
        s.reversal_count + (if trial_is_reversal s c then 1 else 0)
      current_direction :=
        if trial_updates_direction s c then trial_direction s c
        else s.current_direction
      last_sample := some (next_sample_value s c)
      results := s.results ++ [trial_record s c q]
      test_count := s.test_count + 1
      is_finished :=
        if s.reversal_count + (if trial_is_reversal s c then 1 else 0) =
          s.end_criteria_reversals then true else s.is_finished } := by
  unfold run_trial trial_record
  rw [gns_eq]
  dsimp only
  rw [df_eq]

/-!  List helpers for replay and direction-change counting. -/

theorem replay_snoc (flag : String) (crc : ℤ) (rs : List ResultSet)
    (r : ResultSet) :
    replay flag crc (rs ++ [r]) = replay_step flag crc (replay flag crc rs) r := by
  unfold replay
  simp [List.foldl_append]

theorem replay_last (flag : String) (crc : ℤ) (rs : List ResultSet) :
    (replay flag crc rs).2.2 = ((rs.getLast?).map ResultSet.test_sample).getD 0 := by
  induction rs using List.reverseRecOn with
  | nil => rfl
  | append_singleton l r ih =>
    rw [replay_snoc]
    simp [replay_step]

theorem dpc_self (a : Option Direction) : dirPairChange a a = 0 := by
  cases a <;> simp [dirPairChange]

theorem cdc_snoc2 (l : List (Option Direction)) (a b : Option Direction) :
    countDirChanges (l ++ [a, b]) =
      countDirChanges (l ++ [a]) + dirPairChange a b := by
  induction l with
  | nil => simp [countDirChanges]
  | cons x l ih =>
    cases l with
    | nil => simp [countDirChanges]
    | cons y l2 =>
      simp only [List.cons_append, List.append_eq, countDirChanges] at ih ⊢
      omega

theorem results_len_zero (s : Staircase) (h : StairInv s)
    (h0 : s.test_count = 0) : s.results = [] := by
  have h1 : (s.results.length : ℤ) = 0 := by rw [← h.tc_len, h0]
  have h2 : s.results.length = 0 := by exact_mod_cast h1
  exact List.length_eq_zero.mp h2

theorem replay_flag_eq (s : Staircase) (c : Bool) (h : StairInv s) :
    replay (next_flag s c) s.correct_reverse_count s.results =
      replay s.initial_setup s.correct_reverse_count s.results := by
  cases c
  · have hnf : next_flag s false =
        if s.test_count = 0 ∧ s.initial_setup = "Y" then "N"
        else s.initial_setup := rfl
    rw [hnf]
    split_ifs with hc
    · rw [results_len_zero s h hc.1]
      rfl
    · rfl
  · rfl

theorem rc_nonneg (s : Staircase) (h : StairInv s) : 0 ≤ s.reversal_count := by
  rw [h.rc_count]
  exact Int.natCast_nonneg _

/-!  Facts about the derived trial quantities. -/

theorem tdir_of_A (s : Staircase)
    (hA : s.initial_setup = "Y" ∧ s.reversal_count = 0) :
    trial_direction s true = some Direction.closer := by
  have e : trial_direction s true =
      (if s.initial_setup = "Y" ∧ s.reversal_count = 0 then
        some Direction.closer
      else if s.correct_count + 1 = s.correct_reverse_count then
        some Direction.closer
      else none) := rfl
  rw [e, if_pos hA]

theorem tdir_false_eq (s : Staircase) :
    trial_direction s false = some Direction.further := rfl

theorem nsv_of_tdir_none (s : Staircase) (c : Bool)
    (hn : trial_direction s c = none) :
    next_sample_value s c = s.current_sample := by
  cases c
  · exact absurd hn (by simp [tdir_false_eq])
  · have e1 : trial_direction s true =
        (if s.initial_setup = "Y" ∧ s.reversal_count = 0 then
          some Direction.closer
        else if s.correct_count + 1 = s.correct_reverse_count then
          some Direction.closer
        else none) := rfl
    have e2 : next_sample_value s true =
        (if s.initial_setup = "Y" ∧ s.reversal_count = 0 then
          clamp_sample s (s.current_sample + s.harder_step)
        else if s.correct_count + 1 = s.correct_reverse_count then
          clamp_sample s (s.current_sample + s.harder_step)
        else s.current_sample) := rfl
    rw [e1] at hn
    rw [e2]
    split_ifs at hn ⊢ <;> simp_all

theorem no_rev_A (s : Staircase) (h : StairInv s)
    (hA : s.initial_setup = "Y" ∧ s.reversal_count = 0) :
    ¬ trial_is_reversal s true := by
  intro hr
  obtain ⟨h1, h2, h3, h4⟩ := hr
  rcases h.dirC hA.1 hA.2 with hd | hd
  · exact h3 hd
  · rw [tdir_of_A s hA] at h4
    exact h4 hd

/-- A reversal forces a direction update to a set direction different from
the previously set direction. -/
theorem rev_dir_shape (s : Staircase) (c : Bool) (h : StairInv s)
    (hr : trial_is_reversal s c) :
    ∃ d dn, s.current_direction = some d ∧ trial_direction s c = some dn ∧
      d ≠ dn ∧ trial_updates_direction s c := by
  obtain ⟨h1, h2, h3, h4⟩ := hr
  obtain ⟨d, hd⟩ := Option.ne_none_iff_exists'.mp h3
  have hres : s.results ≠ [] := by
    intro hres
    exact h1 (h.empty_last.mp hres)
  rcases hdn : trial_direction s c with _ | dn
  · exact absurd (h.last_cur hres) (by
      rw [nsv_of_tdir_none s c hdn] at h2
      exact h2)
  · refine ⟨d, dn, hd, rfl, ?_, Or.inr ⟨h2, h4⟩⟩
    intro hddn
    rw [hd, hdn, hddn] at h4
    exact h4 rfl

/-- Without a reversal, the direction either stays, or was previously
unset, so the adjacent direction-change contribution is zero. -/
theorem no_rev_dir (s : Staircase) (c : Bool) (h : StairInv s)
    (hr : ¬ trial_is_reversal s c) :
    dirPairChange s.current_direction
      (if trial_updates_direction s c then trial_direction s c
        else s.current_direction) = 0 := by
  split_ifs with hu
  · rcases hu with hu | ⟨hu1, hu2⟩
    · rw [hu]
      rfl
    · rcases hdir : s.current_direction with _ | d
      · rfl
      · exfalso
        have h3 : s.current_direction ≠ none := by
          rw [hdir]
          simp
        have h1 : s.last_sample = none := by
          by_contra h1
          exact hr ⟨h1, hu1, h3, hu2⟩
        have hres : s.results = [] := h.empty_last.mpr h1
        have hd0 := h.empty_dir hres
        rw [hdir] at hd0
        simp at hd0
  · exact dpc_self _

/-!  Replay reconstruction across one fresh trial. -/

theorem step_rep_cc (s : Staircase) (c : Bool) (q : ℚ) (h : StairInv s) :
    (replay (next_flag s c) s.correct_reverse_count
      (s.results ++ [trial_record s c q])).1 = next_correct_count s c := by
  rw [replay_snoc, replay_flag_eq s c h]
  cases c
  · rfl
  · unfold replay_step trial_record next_correct_count
    dsimp only
    rw [h.rep_cc, h.rep_rc,
      show next_flag s true = s.initial_setup from rfl]
    by_cases hA : s.initial_setup = "Y" ∧ s.reversal_count = 0
    · have hR := no_rev_A s h hA
      simp [hA.1, hA.2, hR]
    · have h0 : 0 ≤ s.reversal_count := rc_nonneg s h
      have hcond : s.initial_setup ≠ "Y" ∨
          s.reversal_count +
            (if trial_is_reversal s true then 1 else 0) ≠ 0 := by
        rcases not_and_or.mp hA with hy | hrc
        · exact Or.inl hy
        · right
          split_ifs <;> omega
      simp only [if_neg hA, decide_eq_true_eq]
      rcases hcond with hy | hrc
      · simp [hy]
      · simp [hrc, decide_eq_true_eq]

theorem step_rep_rc (s : Staircase) (c : Bool) (q : ℚ) (h : StairInv s) :
    (replay (next_flag s c) s.correct_reverse_count
      (s.results ++ [trial_record s c q])).2.1 =
      s.reversal_count + (if trial_is_reversal s c then 1 else 0) := by
  rw [replay_snoc, replay_flag_eq s c h]
  unfold replay_step trial_record
  dsimp only
  rw [h.rep_rc]
  simp [decide_eq_true_eq]

theorem step_rc_count (s : Staircase) (c : Bool) (q : ℚ) (h : StairInv s) :
    s.reversal_count + (if trial_is_reversal s c then 1 else 0) =
      (countDirChanges
        ((s.results ++ [trial_record s c q]).map ResultSet.current_direction ++
          [if trial_updates_direction s c then trial_direction s c
            else s.current_direction]) : ℤ) := by
  have e1 : (s.results ++ [trial_record s c q]).map ResultSet.current_direction ++
      [if trial_updates_direction s c then trial_direction s c
        else s.current_direction] =
      s.results.map ResultSet.current_direction ++
        [s.current_direction,
          if trial_updates_direction s c then trial_direction s c
          else s.current_direction] := by
    simp [trial_record]
  rw [e1, cdc_snoc2, h.rc_count]
  push_cast
  by_cases hR : trial_is_reversal s c
  · obtain ⟨d, dn, hd, hdn, hne, hu⟩ := rev_dir_shape s c h hR
    rw [if_pos hR, if_pos hu, hd, hdn]
    simp [dirPairChange, hne]
  · rw [if_neg hR, no_rev_dir s c h hR]
    simp

theorem step_dirC (s : Staircase) (c : Bool) (q : ℚ) (h : StairInv s)
    (hf : next_flag s c = "Y")
    (hrc : s.reversal_count + (if trial_is_reversal s c then 1 else 0) = 0) :
    (if trial_updates_direction s c then trial_direction s c
      else s.current_direction) = none ∨
    (if trial_updates_direction s c then trial_direction s c
      else s.current_direction) = some Direction.closer := by
  have h0 : 0 ≤ s.reversal_count := rc_nonneg s h
  have hR : ¬ trial_is_reversal s c := by
    intro hR
    rw [if_pos hR] at hrc
    omega
  have hrc0 : s.reversal_count = 0 := by
    rw [if_neg hR] at hrc
    omega
  cases c
  · have hnf : next_flag s false =
        if s.test_count = 0 ∧ s.initial_setup = "Y" then "N"
        else s.initial_setup := rfl
    rw [hnf] at hf
    split_ifs at hf with hc
    · exact absurd hf (by decide)
    · have htc : s.test_count ≠ 0 := fun h0x => hc ⟨h0x, hf⟩
      have hres : s.results ≠ [] := by
        intro hre
        exact htc (by rw [h.tc_len, hre]; rfl)
      have hdir := h.dirY hf hres
      rcases h.dirC hf hrc0 with hd | hd
      · exact absurd hd hdir
      · have hV : s.last_sample = some (next_sample_value s false) := by
          by_contra hV
          refine hR ⟨fun hn => hres (h.empty_last.mpr hn), hV, hdir, ?_⟩
          rw [hd, tdir_false_eq]
          simp
        have hU : ¬ trial_updates_direction s false := by
          intro hu
          rcases hu with hu | ⟨hu1, _⟩
          · exact hdir hu
          · exact hu1 hV
        rw [if_neg hU]
        exact Or.inr hd
  · have hfl : s.initial_setup = "Y" := hf
    have hA : s.initial_setup = "Y" ∧ s.reversal_count = 0 := ⟨hfl, hrc0⟩
    split_ifs with hu
    · rw [tdir_of_A s hA]
      exact Or.inr rfl
    · exact h.dirC hfl hrc0

theorem step_dirY (s : Staircase) (c : Bool) (h : StairInv s)
    (hf : next_flag s c = "Y") :
    (if trial_updates_direction s c then trial_direction s c
      else s.current_direction) ≠ none := by
  cases c
  · have hnf : next_flag s false =
        if s.test_count = 0 ∧ s.initial_setup = "Y" then "N"
        else s.initial_setup := rfl
    rw [hnf] at hf
    split_ifs at hf with hc
    · exact absurd hf (by decide)
    · have htc : s.test_count ≠ 0 := fun h0x => hc ⟨h0x, hf⟩
      have hres : s.results ≠ [] := by
        intro hre
        exact htc (by rw [h.tc_len, hre]; rfl)
      have hdir := h.dirY hf hres
      split_ifs with hu
      · rw [tdir_false_eq]
        simp
      · exact hdir
  · have hfl : s.initial_setup = "Y" := hf
    rcases hres : s.results with _ | ⟨r, rs⟩
    · have hdir := h.empty_dir hres
      have hrc0 : s.reversal_count = 0 := by
        have hx := h.rc_count
        rw [hres] at hx
        simpa [countDirChanges] using hx
      have hu : trial_updates_direction s true := Or.inl hdir
      rw [if_pos hu, tdir_of_A s ⟨hfl, hrc0⟩]
      simp
    · have hres2 : s.results ≠ [] := by
        rw [hres]
        simp
      have hdir := h.dirY hfl hres2
      split_ifs with hu
      · rcases hu with hu | ⟨hu1, hu2⟩
        · exact absurd hu hdir
        · rcases hdn : trial_direction s true with _ | dn
          · exact absurd (by
              rw [nsv_of_tdir_none s true hdn]
              exact h.last_cur hres2) hu1
          · simp
      · exact hdir

theorem inv_step (s : Staircase) (c : Bool) (q : ℚ) (h : StairInv s) :
    StairInv (run_trial s c q) := by
  rw [rt_eq]
  constructor
  case tc_len =>
    dsimp only
    rw [h.tc_len]
    simp only [List.length_append, List.length_cons, List.length_nil]
    push_cast
    ring
  case rep_cc =>
    dsimp only
    exact step_rep_cc s c q h
  case rep_rc =>
    dsimp only
    exact step_rep_rc s c q h
  case dirC =>
    dsimp only
    exact step_dirC s c q h
  case dirY =>
    dsimp only
    intro hf _
    exact step_dirY s c h hf
  case empty_last =>
    dsimp only
    simp
  case last_cur =>
    dsimp only
    intro _
    rfl
  case empty_dir =>
    dsimp only
    intro hres
    exact absurd hres (by simp)
  case cc_nonneg =>
    dsimp only
    have := h.cc_nonneg
    unfold next_correct_count
    split_ifs <;> omega
  case rc_count =>
    dsimp only
    exact step_rc_count s c q h

theorem inv_mk (name : String) (harder easier target start : ℚ)
    (initial : String) (crc ecr : ℤ) :
    StairInv (mkStaircase name harder easier target start initial crc ecr) := by
  constructor <;> simp [mkStaircase, replay, countDirChanges]

theorem inv_runTrials (s : Staircase) (cs : List Bool) (h : StairInv s) :
    StairInv (runTrials s cs) := by
  induction cs generalizing s with
  | nil => exact h
  | cons c cs ih =>
    have e : runTrials s (c :: cs) = runTrials (run_trial s c s.target) cs := rfl
    rw [e]
    exact ih _ (inv_step s c s.target h)

/-!  Preservation of the configuration fields and the bounds invariant. -/

theorem rt_target (s : Staircase) (c : Bool) (q : ℚ) :
    (run_trial s c q).target = s.target := by
  rw [rt_eq]

theorem rt_start (s : Staircase) (c : Bool) (q : ℚ) :
    (run_trial s c q).start_value = s.start_value := by
  rw [rt_eq]

theorem rt_ecr (s : Staircase) (c : Bool) (q : ℚ) :
    (run_trial s c q).end_criteria_reversals = s.end_criteria_reversals := by
  rw [rt_eq]

theorem runTrials_target (s : Staircase) (cs : List Bool) :
    (runTrials s cs).target = s.target := by
  induction cs generalizing s with
  | nil => rfl
  | cons c cs ih =>
    have e : runTrials s (c :: cs) = runTrials (run_trial s c s.target) cs := rfl
    rw [e, ih, rt_target]

theorem runTrials_start (s : Staircase) (cs : List Bool) :
    (runTrials s cs).start_value = s.start_value := by
  induction cs generalizing s with
  | nil => rfl
  | cons c cs ih =>
    have e : runTrials s (c :: cs) = runTrials (run_trial s c s.target) cs := rfl
    rw [e, ih, rt_start]

/-- The clamped value of any move keeps SampleBounds. -/
theorem clamp_bounds (s : Staircase) (m : ℚ) (h : SampleBounds s) :
    SampleBounds { s with current_sample := clamp_sample s m } := by
  unfold SampleBounds at h ⊢
  dsimp only
  unfold clamp_sample
  rcases h with ⟨h1, h2, h3, h4, h5⟩ | ⟨h1, h2, h3, h4, h5⟩
  · left
    refine ⟨h1, h2, h3, ?_⟩
    have habs : |s.harder_step| = s.harder_step := abs_of_pos h2
    rw [habs]
    split_ifs with c1 c2 c3
    · constructor <;> linarith
    · constructor <;> linarith [c2.1]
    · rcases c3 with c3 | c3
      · constructor <;> linarith
      · constructor <;> linarith [c3.1]
    · push_neg at c1 c2 c3
      exact ⟨c3.1 h1, c1 h1⟩
  · right
    refine ⟨h1, h2, h3, ?_⟩
    have habs : |s.harder_step| = -s.harder_step := abs_of_neg h2
    rw [habs]
    split_ifs with c1 c2 c3
    · constructor <;> linarith [c1.1]
    · constructor <;> linarith
    · rcases c3 with c3 | c3
      · constructor <;> linarith [c3.1]
      · constructor <;> linarith
    · push_neg at c1 c2 c3
      exact ⟨c2 h1, c3.2 h1⟩

theorem sb_step (s : Staircase) (c : Bool) (q : ℚ) (h : SampleBounds s) :
    SampleBounds (run_trial s c q) := by
  rw [rt_eq]
  have hb : SampleBounds { s with current_sample := next_sample_value s c } := by
    unfold next_sample_value
    split_ifs with c1 c2 c3
    · exact clamp_bounds s _ h
    · exact clamp_bounds s _ h
    · rcases h with ⟨h1, h2, h3, h4, h5⟩ | ⟨h1, h2, h3, h4, h5⟩
      · exact Or.inl ⟨h1, h2, h3, h4, h5⟩
      · exact Or.inr ⟨h1, h2, h3, h4, h5⟩
    · exact clamp_bounds s _ h
  unfold SampleBounds at hb ⊢
  dsimp only at hb ⊢
  exact hb

theorem sb_runTrials (s : Staircase) (cs : List Bool) (h : SampleBounds s) :
    SampleBounds (runTrials s cs) := by
  induction cs generalizing s with
  | nil => exact h
  | cons c cs ih =>
    have e : runTrials s (c :: cs) = runTrials (run_trial s c s.target) cs := rfl
    rw [e]
    exact ih _ (sb_step s c s.target h)

/-!  The finished flag under experiment-driven trials. -/

theorem fin_step (s : Staircase) (c : Bool) (q : ℚ) (h : FinishedInv s)
    (hopen : s.is_finished = false) : FinishedInv (run_trial s c q) := by
  obtain ⟨h0, h1, h2⟩ := h
  have hne : s.reversal_count ≠ s.end_criteria_reversals := by
    intro he
    have := h2.mpr he
    rw [hopen] at this
    simp at this
  rw [rt_eq]
  unfold FinishedInv
  dsimp only
  refine ⟨?_, ?_, ?_⟩
  · split_ifs <;> omega
  · split_ifs <;> omega
  · rw [hopen]
    split_ifs <;> simp_all

theorem rwo_step_eq (s : Staircase) (c : Bool) (cs : List Bool) :
    run_while_open s (c :: cs) =
      run_while_open (if s.is_finished then s else run_trial s c s.target) cs := rfl

theorem fin_run_while_open (s : Staircase) (cs : List Bool)
    (h : FinishedInv s) : FinishedInv (run_while_open s cs) := by
  induction cs generalizing s with
  | nil => exact h
  | cons c cs ih =>
    rw [rwo_step_eq]
    by_cases hf : s.is_finished = true
    · rw [if_pos hf]
      exact ih s h
    · rw [if_neg hf]
      exact ih _ (fin_step s c s.target h (by simpa using hf))

theorem rwo_finished (s : Staircase) (cs : List Bool)
    (hf : s.is_finished = true) : run_while_open s cs = s := by
  induction cs with
  | nil => rfl
  | cons c cs ih =>
    rw [rwo_step_eq, if_pos hf]
    exact ih

theorem rwo_ecr (s : Staircase) (cs : List Bool) :
    (run_while_open s cs).end_criteria_reversals = s.end_criteria_reversals := by
  induction cs generalizing s with
  | nil => rfl
  | cons c cs ih =>
    rw [rwo_step_eq]
    by_cases hf : s.is_finished = true
    · rw [if_pos hf]
      exact ih s
    · rw [if_neg hf, ih, rt_ecr]

/-!  Concrete trial-by-trial evaluations. -/

theorem dirNe1 : ¬ (Direction.closer = Direction.further) := by decide

theorem dirNe2 : ¬ (Direction.further = Direction.closer) := by decide

theorem S10_step1 : run_trial S10 true S10.target = S10a := by
  norm_num [run_trial, get_next_sample, gns_branch, gns_bookkeep, bk_reversal,
    calc_next_sample, clamp_sample, moved_sample, determine_is_finished,
    mkStaircase, S10, S10a, strNY, Option.some_ne_none, dirNe1, dirNe2]

theorem S10_step2 : run_trial S10a true S10a.target = S10b := by
  norm_num [run_trial, get_next_sample, gns_branch, gns_bookkeep, bk_reversal,
    calc_next_sample, clamp_sample, moved_sample, determine_is_finished,
    S10a, S10b, strNY, Option.some_ne_none, dirNe1, dirNe2]

theorem S10_step3 : run_trial S10b false S10b.target = S10c := by
  norm_num [run_trial, get_next_sample, gns_branch, gns_bookkeep, bk_reversal,
    calc_next_sample, clamp_sample, moved_sample, determine_is_finished,
    S10a, S10b, S10c, strNY, Option.some_ne_none, dirNe1, dirNe2]

theorem S10_step4 : run_trial S10c true S10c.target = S10d := by
  norm_num [run_trial, get_next_sample, gns_branch, gns_bookkeep, bk_reversal,
    calc_next_sample, clamp_sample, moved_sample, determine_is_finished,
    S10a, S10b, S10c, S10d, strNY, Option.some_ne_none, dirNe1, dirNe2]

theorem S10_step5 : run_trial S10d true S10d.target = S10e := by
  norm_num [run_trial, get_next_sample, gns_branch, gns_bookkeep, bk_reversal,
    calc_next_sample, clamp_sample, moved_sample, determine_is_finished,
    S10a, S10b, S10c, S10d, S10e, strNY, Option.some_ne_none, dirNe1, dirNe2]

theorem S10_run : runTrials S10 [true, true, false, true, true] = S10e := by
  simp only [runTrials, List.foldl_cons, List.foldl_nil,
    S10_step1, S10_step2, S10_step3, S10_step4, S10_step5]

theorem S100_step1 : run_trial S100 true S100.target = S100a := by
  norm_num [run_trial, get_next_sample, gns_branch, gns_bookkeep, bk_reversal,
    calc_next_sample, clamp_sample, moved_sample, determine_is_finished,
    mkStaircase, S100, S100a, strNY, Option.some_ne_none, dirNe1, dirNe2]

theorem S100_step2 : run_trial S100a false S100a.target = S100b := by
  norm_num [run_trial, get_next_sample, gns_branch, gns_bookkeep, bk_reversal,
    calc_next_sample, clamp_sample, moved_sample, determine_is_finished,
    S100a, S100b, strNY, Option.some_ne_none, dirNe1, dirNe2]

theorem SY12_step1 : run_trial SY12 true SY12.target = SY12a := by
  norm_num [run_trial, get_next_sample, gns_branch, gns_bookkeep, bk_reversal,
    calc_next_sample, clamp_sample, moved_sample, determine_is_finished,
    mkStaircase, SY12, SY12a, strNY, Option.some_ne_none, dirNe1, dirNe2]

theorem S100_bt : backtrack S100b 90 = Except.ok S100bt := by
  norm_num [backtrack, replay, replay_step, check_correct, get_next_sample,
    gns_branch, gns_bookkeep, bk_reversal, calc_next_sample, clamp_sample,
    moved_sample, determine_is_finished, S100a, S100b, S100bt, strNY,
    Option.some_ne_none, dirNe1, dirNe2, List.getLast?, List.dropLast]

theorem S100_run1 : runTrials S100 [true] = S100a := by
  simp only [runTrials, List.foldl_cons, List.foldl_nil, S100_step1]

/-!  The claims. -/

/-- C1 (counterexample): for the two-trial history of the backtrack
scenario, the replay loop over the surviving record reconstructs
last_sample = 100 (the stored pre-trial sample of the surviving record),
while the sample value in effect after that record is 90, so the replay
loop does not reconstruct the sample value in effect after the last
surviving record. -/
theorem c1_replay_lastSample_cex :
    (replay (run_trial (runTrials S100 [true]) false
        (runTrials S100 [true]).target).initial_setup
      (run_trial (runTrials S100 [true]) false
        (runTrials S100 [true]).target).correct_reverse_count
      ((run_trial (runTrials S100 [true]) false
        (runTrials S100 [true]).target).results.dropLast)).2.2 = 100 ∧
    (runTrials S100 [true]).current_sample = 90 ∧ ((100 : ℚ) ≠ 90) := by
  rw [S100_run1, S100_step2]
  refine ⟨?_, rfl, by norm_num⟩
  norm_num [replay, replay_step, S100b, S100a, List.dropLast]

/-- C1 (amended): for every staircase and every recorded history, removing
the tail record and running backtrack's replay loop over the surviving
records reconstructs correct_count and reversal_count equal to the values
the fresh-trial bookkeeping holds after those records' trials, and
reconstructs last_sample equal to the stored (pre-trial) test_sample of
the last surviving record — not the sample in effect after it, which
backtrack instead restores from the removed record's test_sample field. -/
theorem c1_backtrack_replay_reconstructs (name : String)
    (harder easier target start : ℚ) (initial : String) (crc ecr : ℤ)
    (cs : List Bool) (c : Bool) :
    replay (run_trial (runTrials (mkStaircase name harder easier target
          start initial crc ecr) cs) c
        (runTrials (mkStaircase name harder easier target start initial
          crc ecr) cs).target).initial_setup
      (run_trial (runTrials (mkStaircase name harder easier target start
          initial crc ecr) cs) c
        (runTrials (mkStaircase name harder easier target start initial
          crc ecr) cs).target).correct_reverse_count
      ((run_trial (runTrials (mkStaircase name harder easier target start
          initial crc ecr) cs) c
        (runTrials (mkStaircase name harder easier target start initial
          crc ecr) cs).target).results.dropLast) =
    ((runTrials (mkStaircase name harder easier target start initial crc
        ecr) cs).correct_count,
      (runTrials (mkStaircase name harder easier target start initial crc
        ecr) cs).reversal_count,
      (((runTrials (mkStaircase name harder easier target start initial
        crc ecr) cs).results.getLast?).map ResultSet.test_sample).getD 0) := by
  have hI := inv_runTrials _ cs
    (inv_mk name harder easier target start initial crc ecr)
  rw [rt_eq]
  dsimp only
  rw [List.dropLast_concat, replay_flag_eq _ c hI]
  rw [← hI.rep_cc, ← hI.rep_rc, ← replay_last]

/-- C2: the single-staircase scenario with start 10, reference 50, harder
step 5, easier step 2, two consecutive correct answers per tightening, two
reversals to finish, first-error mode off: the correctness sequence
[true, true, false, true, true] produces the pre-trial sample trajectory
[10, 10, 15, 13, 13], next sample 18, exactly 2 reversals after the fifth
trial, and is_finished = true after trial 5. -/
theorem c2_scenario_trajectory :
    (runTrials S10 [true, true, false, true, true]).results.map
      ResultSet.test_sample = [10, 10, 15, 13, 13] ∧
    (runTrials S10 [true, true, false, true, true]).current_sample = 18 ∧
    (runTrials S10 [true, true, false, true, true]).reversal_count = 2 ∧
    (runTrials S10 [true, true, false, true, true]).is_finished = true := by
  rw [S10_run]
  refine ⟨?_, rfl, rfl, rfl⟩
  rfl

/-- C3 (counterexample): in the backtrack scenario (start 100, reference 0,
harder step 10, easier step 5, one correct answer per tightening), after a
correct first trial and an incorrect second trial the sample is 95, not 85
as the claim states: an incorrect answer moves the sample away from the
reference, back toward the start value. -/
theorem c3_trial2_sample_cex :
    (run_trial (run_trial S100 true S100.target) false
      (run_trial S100 true S100.target).target).current_sample = 95 ∧
    ((95 : ℚ) ≠ 85) := by
  rw [S100_step1, S100_step2]
  exact ⟨rfl, by norm_num⟩

/-- C3 (amended): with start 100, reference 0, harder step 10, easier step
5, one correct answer per tightening: after a correct trial 1 the sample
is 90 moving toward the reference; after an incorrect trial 2 the sample
is 95 moving away, the trial is flagged as a reversal and reversal_count
is 1; backtracking trial 2 to correct yields sample 80 (continuing toward
the reference), reversal_count 0, correct_count reset to 0, and reversal
flag false on the new tail record. -/
theorem c3_backtrack_scenario :
    (run_trial S100 true S100.target).current_sample = 90 ∧
    (run_trial S100 true S100.target).current_direction =
      some Direction.closer ∧
    (run_trial (run_trial S100 true S100.target) false
      (run_trial S100 true S100.target).target).current_sample = 95 ∧
    (run_trial (run_trial S100 true S100.target) false
      (run_trial S100 true S100.target).target).current_direction =
      some Direction.further ∧
    (run_trial (run_trial S100 true S100.target) false
      (run_trial S100 true S100.target).target).reversal_count = 1 ∧
    (((run_trial (run_trial S100 true S100.target) false
      (run_trial S100 true S100.target).target).results.getLast?).map
        ResultSet.reversal).getD false = true ∧
    backtrack (run_trial (run_trial S100 true S100.target) false
      (run_trial S100 true S100.target).target) 90 = Except.ok S100bt ∧
    S100bt.current_sample = 80 ∧
    S100bt.reversal_count = 0 ∧
    S100bt.correct_count = 0 ∧
    S100bt.current_direction = some Direction.closer ∧
    ((S100bt.results.getLast?).map ResultSet.reversal).getD true = false := by
  rw [S100_step1, S100_step2]
  refine ⟨rfl, rfl, rfl, rfl, rfl, ?_, S100_bt, rfl, rfl, rfl, rfl, ?_⟩
  · rfl
  · rfl

/-- C4: after a move in calc_next_sample, with m the unclamped moved value:
if start < reference and m reaches the reference, the sample is clamped to
reference minus the harder-step magnitude; if start > reference and m
reaches the reference, it is clamped to reference plus that magnitude; and
if the move overshot past start on the side away from the reference, it is
clamped to start. -/
theorem c4_clamp_rules (s : Staircase) (d : Direction) :
    (s.start_value < s.target → s.target ≤ moved_sample s d →
      (calc_next_sample s d).current_sample =
        s.target - |s.harder_step|) ∧
    (s.start_value > s.target → s.target ≥ moved_sample s d →
      (calc_next_sample s d).current_sample =
        s.target + |s.harder_step|) ∧
    ((s.target > s.start_value ∧ s.start_value > moved_sample s d) ∨
      (s.target < s.start_value ∧ s.start_value < moved_sample s d) →
      (calc_next_sample s d).current_sample = s.start_value) := by
  unfold calc_next_sample clamp_sample
  dsimp only
  refine ⟨?_, ?_, ?_⟩
  · intro h1 h2
    rw [if_pos ⟨h1, h2⟩]
  · intro h1 h2
    rw [if_neg (by intro hc; linarith [hc.1]), if_pos ⟨h1, h2⟩]
  · intro h3
    rcases h3 with ⟨h1, h2⟩ | ⟨h1, h2⟩
    · rw [if_neg (by intro hc; linarith [hc.2]),
        if_neg (by intro hc; linarith [hc.1]),
        if_pos (Or.inl ⟨h1, h2⟩)]
    · rw [if_neg (by intro hc; linarith [hc.1]),
        if_neg (by intro hc; linarith [hc.2]),
        if_pos (Or.inr ⟨h1, h2⟩)]

/-- C4 (witness): the three clamp rules at concrete inputs: a tightening
move from 48 toward 50 starting at 10 clamps to 45; a tightening move from
8 toward 0 starting at 100 clamps to 10; a loosening move from 11 away
from 50 starting at 10 clamps to 10. -/
theorem c4_clamp_rules_witness :
    ((CL1.start_value < CL1.target ∧
        CL1.target ≤ moved_sample CL1 Direction.closer) ∧
      (calc_next_sample CL1 Direction.closer).current_sample =
        CL1.target - |CL1.harder_step|) ∧
    ((CL2.start_value > CL2.target ∧
        CL2.target ≥ moved_sample CL2 Direction.closer) ∧
      (calc_next_sample CL2 Direction.closer).current_sample =
        CL2.target + |CL2.harder_step|) ∧
    ((CL3.target > CL3.start_value ∧
        CL3.start_value > moved_sample CL3 Direction.further) ∧
      (calc_next_sample CL3 Direction.further).current_sample =
        CL3.start_value) := by
  have e1 : CL1.start_value < CL1.target ∧
      CL1.target ≤ moved_sample CL1 Direction.closer := by
    norm_num [CL1, S10, mkStaircase, moved_sample]
  have e2 : CL2.start_value > CL2.target ∧
      CL2.target ≥ moved_sample CL2 Direction.closer := by
    norm_num [CL2, S100, mkStaircase, moved_sample]
  have e3 : CL3.target > CL3.start_value ∧
      CL3.start_value > moved_sample CL3 Direction.further := by
    norm_num [CL3, S10, mkStaircase, moved_sample]
  exact ⟨⟨e1, (c4_clamp_rules CL1 Direction.closer).1 e1.1 e1.2⟩,
    ⟨e2, (c4_clamp_rules CL2 Direction.closer).2.1 e2.1 e2.2⟩,
    ⟨e3, (c4_clamp_rules CL3 Direction.further).2.2 (Or.inl e3)⟩⟩

/-- C5 (counterexample): in the backtrack scenario after trials
[true, false], reversal_count is 1, yet the records' stored direction
values contain no adjacent differing set pair: the stored direction of a
record is the direction BEFORE that trial, so the final trial's direction
change is not visible inside the record sequence alone. -/
theorem c5_direction_pairs_cex :
    (run_trial (run_trial S100 true S100.target) false
      (run_trial S100 true S100.target).target).reversal_count = 1 ∧
    countDirChanges ((run_trial (run_trial S100 true S100.target) false
      (run_trial S100 true S100.target).target).results.map
        ResultSet.current_direction) = 0 := by
  rw [S100_step1, S100_step2]
  exact ⟨rfl, rfl⟩

/-- C5 (amended): for every staircase after any number of submitted
trials, each record's stored direction is the direction BEFORE that trial,
and reversal_count equals the number of adjacent differing set pairs in
the stored direction sequence extended with the final current_direction
(which supplies the direction after the last trial). -/
theorem c5_reversal_count_dir_changes (name : String)
    (harder easier target start : ℚ) (initial : String) (crc ecr : ℤ)
    (cs : List Bool) :
    (runTrials (mkStaircase name harder easier target start initial crc
      ecr) cs).reversal_count =
    (countDirChanges ((runTrials (mkStaircase name harder easier target
        start initial crc ecr) cs).results.map ResultSet.current_direction ++
      [(runTrials (mkStaircase name harder easier target start initial crc
        ecr) cs).current_direction]) : ℤ) :=
  (inv_runTrials _ cs
    (inv_mk name harder easier target start initial crc ecr)).rc_count

/-- C6 (counterexample): a staircase configured with zero reversals to
finish starts with is_finished = false although reversal_count already
equals reversalsToFinish, so "is_finished is true iff reversal_count =
reversalsToFinish" fails for that configuration. -/
theorem c6_ecr_zero_cex :
    SEcr0.is_finished = false ∧
    SEcr0.reversal_count = SEcr0.end_criteria_reversals := ⟨rfl, rfl⟩

/-- C6 (amended): for every staircase whose reversals-to-finish threshold
is positive, driven as by Experiment.run (no further trials once
finished), is_finished is true exactly when reversal_count has reached the
threshold — it becomes true on the trial that reaches it — and once
finished the staircase receives no further trials, so the flag never
becomes false again except via backtrack. -/
theorem c6_finished_iff_reversals (name : String)
    (harder easier target start : ℚ) (initial : String) (crc ecr : ℤ)
    (cs : List Bool) (hecr : 0 < ecr) :
    ((run_while_open (mkStaircase name harder easier target start initial
        crc ecr) cs).is_finished = true ↔
      (run_while_open (mkStaircase name harder easier target start initial
        crc ecr) cs).reversal_count = ecr) ∧
    (∀ cs2, (run_while_open (mkStaircase name harder easier target start
        initial crc ecr) cs).is_finished = true →
      run_while_open (run_while_open (mkStaircase name harder easier
        target start initial crc ecr) cs) cs2 =
        run_while_open (mkStaircase name harder easier target start
          initial crc ecr) cs) := by
  have hF : FinishedInv (mkStaircase name harder easier target start
      initial crc ecr) := by
    unfold FinishedInv mkStaircase
    dsimp only
    refine ⟨le_refl 0, by omega, ?_⟩
    constructor
    · intro h
      simp at h
    · intro h
      omega
  have hFr := fin_run_while_open _ cs hF
  constructor
  · have h2 := hFr.2.2
    rwa [rwo_ecr] at h2
  · intro cs2 hfin
    exact rwo_finished _ cs2 hfin

/-- C6 (witness): the amended statement instantiated with a positive
threshold of one reversal and the correctness sequence [true, false]. -/
theorem c6_finished_iff_reversals_witness :
    (0 : ℤ) < 1 ∧
    ((run_while_open (mkStaircase "Staircase 1" 10 5 0 100 "N" 1 1)
        [true, false]).is_finished = true ↔
      (run_while_open (mkStaircase "Staircase 1" 10 5 0 100 "N" 1 1)
        [true, false]).reversal_count = 1) :=
  ⟨by norm_num,
    (c6_finished_iff_reversals "Staircase 1" 10 5 0 100 "N" 1 1
      [true, false] (by norm_num)).1⟩

/-- C7 (counterexample): with start 10, reference 12 and harder step 5
(larger than the start-reference gap), one correct trial in first-error
mode overshoots the reference and is clamped to 12 - 5 = 7, which lies
below min(start, reference) = 10: the claimed bounds fail for such a
staircase. -/
theorem c7_bounds_cex :
    (run_trial SY12 true SY12.target).current_sample = 7 ∧
    ¬ (min SY12.start_value SY12.target ≤
        (run_trial SY12 true SY12.target).current_sample) := by
  rw [SY12_step1]
  refine ⟨rfl, ?_⟩
  norm_num [SY12, SY12a, mkStaircase]

/-- C7 (amended): for every staircase whose configured harder step is
positive and at most the distance from start to reference, with start
distinct from the reference: after any number of trials the current
sample lies between min(start, reference) and max(start, reference), can
equal the start value (it does before any trial), and is never equal to
the reference value. -/
theorem c7_sample_bounds (name : String) (harder easier target start : ℚ)
    (initial : String) (crc ecr : ℤ) (cs : List Bool)
    (hh : 0 < harder) (hg : harder ≤ |target - start|)
    (hne : start ≠ target) :
    min start target ≤ (runTrials (mkStaircase name harder easier target
      start initial crc ecr) cs).current_sample ∧
    (runTrials (mkStaircase name harder easier target start initial crc
      ecr) cs).current_sample ≤ max start target ∧
    (runTrials (mkStaircase name harder easier target start initial crc
      ecr) cs).current_sample ≠ target ∧
    (runTrials (mkStaircase name harder easier target start initial crc
      ecr) []).current_sample = start := by
  have hsb0 : SampleBounds (mkStaircase name harder easier target start
      initial crc ecr) := by
    unfold SampleBounds mkStaircase
    dsimp only
    rcases hne.lt_or_lt with hlt | hlt
    · left
      rw [if_neg (by linarith)]
      refine ⟨hlt, hh, ?_, le_refl start, hlt⟩
      rwa [abs_of_pos (by linarith : (0 : ℚ) < target - start)] at hg
    · right
      rw [if_pos hlt]
      refine ⟨hlt, by linarith, ?_, hlt, le_refl start⟩
      rw [abs_of_neg (by linarith : target - start < 0)] at hg
      linarith
  have hsb := sb_runTrials _ cs hsb0
  have hs : (runTrials (mkStaircase name harder easier target start
      initial crc ecr) cs).start_value = start := by
    rw [runTrials_start]
    rfl
  have ht : (runTrials (mkStaircase name harder easier target start
      initial crc ecr) cs).target = target := by
    rw [runTrials_target]
    rfl
  rcases hsb with ⟨h1, h2, h3, h4, h5⟩ | ⟨h1, h2, h3, h4, h5⟩ <;>
    simp only [hs, ht] at h1 h4 h5
  · exact ⟨by rw [min_eq_left h1.le]; exact h4,
      by rw [max_eq_right h1.le]; exact h5.le, ne_of_lt h5, rfl⟩
  · exact ⟨by rw [min_eq_right h1.le]; exact h4.le,
      by rw [max_eq_left h1.le]; exact h5, ne_of_gt h4, rfl⟩

/-- C7 (witness): the amended bounds at the section 8 configuration
(start 10, reference 50, harder step 5) after the trials [true, false]. -/
theorem c7_sample_bounds_witness :
    ((0 : ℚ) < 5 ∧ (5 : ℚ) ≤ |(50 : ℚ) - 10| ∧ (10 : ℚ) ≠ 50) ∧
    (min (10 : ℚ) 50 ≤ (runTrials (mkStaircase "Staircase 1" 5 2 50 10
        "N" 2 2) [true, false]).current_sample ∧
      (runTrials (mkStaircase "Staircase 1" 5 2 50 10 "N" 2 2)
        [true, false]).current_sample ≤ max (10 : ℚ) 50 ∧
      (runTrials (mkStaircase "Staircase 1" 5 2 50 10 "N" 2 2)
        [true, false]).current_sample ≠ 50 ∧
      (runTrials (mkStaircase "Staircase 1" 5 2 50 10 "N" 2 2)
        []).current_sample = 10) :=
  ⟨⟨by norm_num, by norm_num, by norm_num⟩,
    c7_sample_bounds "Staircase 1" 5 2 50 10 "N" 2 2 [true, false]
      (by norm_num) (by norm_num) (by norm_num)⟩

/-- C8: under the Serial swap policy, next_staircase invoked with a
non-null, unfinished current staircase falls off the end of the Python
function and returns None instead of the same staircase, contradicting
the documented Serial behaviour of running one staircase to completion
(the caller then crashes dereferencing None). -/
theorem c8_serial_returns_none :
    next_staircase ESerial 0 (some S100) = none ∧
    S100.is_finished = false := ⟨rfl, rfl⟩

/-- C9: invoking backtrack on a staircase with no recorded trials raises
IndexError: Python evaluates self.results[-1] before the None guard, so
the guard that was meant to make the empty case a no-op is unreachable. -/
theorem c9_backtrack_empty_raises :
    backtrack S100 90 = Except.error "IndexError" := rfl

/-- C10: check_correct returns true exactly when the reference and the
sample differ and the selected value equals the strictly greater of the
two; in particular a trial whose test sample equals the reference value is
always scored incorrect. -/
theorem c10_check_correct_iff (selected target sample : ℚ) :
    check_correct selected target sample = true ↔
      (target ≠ sample ∧ selected = max target sample) := by
  unfold check_correct
  split_ifs with h1 h2
  · simp only [true_iff]
    exact ⟨ne_of_gt h1.2, by rw [h1.1, max_eq_left h1.2.le]⟩
  · simp only [true_iff]
    exact ⟨ne_of_lt h2.2, by rw [h2.1, max_eq_right h2.2.le]⟩
  · simp only [false_iff]
    rintro ⟨hne, hsel⟩
    rcases hne.lt_or_lt with hlt | hlt
    · exact h2 ⟨by rw [hsel, max_eq_right hlt.le], hlt⟩
    · exact h1 ⟨by rw [hsel, max_eq_left hlt.le], hlt⟩
